import Mathlib

/-!
Shallow embedding of the koifish QuerySet core: restriction objects
(filters, sorts, pagination) and their containers, the sparse page cache,
and the QuerySet paging policy, translated from
`src/model/restrictions/*.py`, `src/cacher/*.py`, `src/model/queryset.py`
and `src/adapters/restless.py`.
-/

namespace Koifish

/-- Decidable equality for Except results, so concrete parser and paging
runs can be settled by decide. -/
instance exceptDecEq {ε α : Type} [DecidableEq ε] [DecidableEq α] :
    DecidableEq (Except ε α) := fun x y =>
  match x, y with
  | .ok a, .ok b =>
    if h : a = b then .isTrue (by rw [h]) else .isFalse (by simp [h])
  | .error a, .error b =>
    if h : a = b then .isTrue (by rw [h]) else .isFalse (by simp [h])
  | .ok _, .error _ => .isFalse (by simp)
  | .error _, .ok _ => .isFalse (by simp)

/-- Values carried by filter expressions and records. Python values are
dynamically typed; the claims only need null, strings and integers. -/
inductive Value where
  | null : Value
  | str (s : String) : Value
  | int (n : Int) : Value
deriving DecidableEq, Repr

/-- Operators used for filtering restrictions; from `FilterOperator` in
`src/model/restrictions/restrictions.py` (tokens eq, lt, gt, ne, in). -/
inductive FilterOperator where
  | Equal
  | LessThan
  | GreaterThan
  | NotEqual
  | In
deriving DecidableEq, Repr

/-- Parse an operator token as Python `FilterOperator(op)` does;
`none` models the ValueError on an unrecognized token. -/
def FilterOperator.ofToken (s : String) : Option FilterOperator :=
  if s = "eq" then some .Equal
  else if s = "lt" then some .LessThan
  else if s = "gt" then some .GreaterThan
  else if s = "ne" then some .NotEqual
  else if s = "in" then some .In
  else none

/-- Python `str(FilterOperator.X)` as interpolated into error messages. -/
def FilterOperator.pyStr : FilterOperator → String
  | .Equal => "FilterOperator.Equal"
  | .LessThan => "FilterOperator.LessThan"
  | .GreaterThan => "FilterOperator.GreaterThan"
  | .NotEqual => "FilterOperator.NotEqual"
  | .In => "FilterOperator.In"

/-- Sort directions; from `SortOperator` in restrictions.py. -/
inductive SortOperator where
  | Ascending
  | Descending
deriving DecidableEq, Repr

/-- Filter restriction value object: slots (field_name, op, val),
equality over all slots (`BaseRestriction.eq` in base.py). -/
structure Filter where
  field_name : String
  op : FilterOperator
  val : Value
deriving DecidableEq, Repr

/-- Sort restriction value object: slots (field_name, direction).
Named SortRestriction because `Sort` is reserved in Lean. -/
structure SortRestriction where
  field_name : String
  direction : SortOperator
deriving DecidableEq, Repr

/-- Pagination restriction value object: slots (offset, limit); either may
be Python None, hence the options. -/
structure Pagination where
  offset : Option Nat
  limit : Option Nat
deriving DecidableEq, Repr

/-- Auxiliary fueled splitter over character lists mirroring Python
`str.split(delim)`: leftmost non-overlapping delimiter occurrences, empty
chunks kept. Structural fuel keeps it kernel-reducible. -/
def splitGo (delim : List Char) : Nat → List Char → List Char → List (List Char)
  | 0, _, acc => [acc.reverse]
  | _, [], acc => [acc.reverse]
  | fuel + 1, s@(c :: rest), acc =>
    if delim.isPrefixOf s then
      acc.reverse :: splitGo delim fuel (s.drop delim.length) []
    else
      splitGo delim fuel rest (c :: acc)

/-- Python `s.split(delim)` for a non-empty delimiter. -/
def pySplit (s delim : String) : List String :=
  (splitGo delim.data (s.data.length + 1) s.data []).map fun cs => ⟨cs⟩

/-- Association-list lookup keyed by field name; models reading one entry
of the Python dict containers. -/
def assocFind {α : Type} (data : List (String × α)) (k : String) : Option α :=
  match data with
  | [] => none
  | (k', v) :: rest => if k' = k then some v else assocFind rest k

/-- Association-list lookup keyed by index, for the sparse cache storage. -/
def assocFind2 {α : Type} (data : List (Nat × α)) (k : Nat) : Option α :=
  match data with
  | [] => none
  | (k', v) :: rest => if k' = k then some v else assocFind2 rest k

/-- Filters container: dict field_name to set-of-Filter
(`Filters` in restrictions.py). The Python set is modelled as a
duplicate-free list with membership-tested insertion. -/
structure Filters where
  data : List (String × List Filter)
deriving DecidableEq, Repr

/-- Empty Filters container (`Filters()` with no expressions). -/
def Filters.empty : Filters := ⟨[]⟩

/-- Build one Filter from a filtering expression `field__op=value`
(`Filters.make_object`); errors model the ValueError raised on bad
syntax or an unrecognized operator token. -/
def Filters.make_object (key : String) (value : Value) : Except String Filter :=
  match pySplit key "__" with
  | [field_name, opTok] =>
    match FilterOperator.ofToken opTok with
    | some op => .ok { field_name := field_name, op := op, val := value }
    | none => .error ("Bad filter expression syntax: " ++ key)
  | _ => .error ("Bad filter expression syntax: " ++ key)

/-- Set insertion: Python `set.add` is a no-op when an equal element is
already present. -/
def setAdd (s : List Filter) (f : Filter) : List Filter :=
  if f ∈ s then s else s ++ [f]

/-- Add one Filter object under its field name, creating the set on the
first filter for that field (body of the loop in `Filters.apply`). -/
def addFilterAssoc (data : List (String × List Filter)) (f : Filter) :
    List (String × List Filter) :=
  match data with
  | [] => [(f.field_name, [f])]
  | (k, s) :: rest =>
    if k = f.field_name then (k, setAdd s f) :: rest
    else (k, s) :: addFilterAssoc rest f

/-- One parsed filter appended to the container. -/
def Filters.addFilter (fs : Filters) (f : Filter) : Filters :=
  ⟨addFilterAssoc fs.data f⟩

/-- `Filters.apply(**kwargs)`: parse each expression and append it to
the existing restrictions. -/
def Filters.apply (fs : Filters) (kwargs : List (String × Value)) :
    Except String Filters :=
  match kwargs with
  | [] => .ok fs
  | (k, v) :: rest => do
    let f ← Filters.make_object k v
    Filters.apply (fs.addFilter f) rest

/-- Sorts container: dict field_name to one-element set-of-Sort
(`Sorts` in restrictions.py). -/
structure Sorts where
  data : List (String × List SortRestriction)
deriving DecidableEq, Repr

/-- Empty Sorts container (`Sorts()` with no expressions). -/
def Sorts.empty : Sorts := ⟨[]⟩

/-- Build one SortRestriction from a sorting expression
(`Sorts.make_object`): split on the dash; more than two chunks or an empty
expression is an error; a leading empty chunk means descending. -/
def Sorts.make_object (expr : String) : Except String SortRestriction :=
  let chunks := pySplit expr "-"
  if chunks.length > 2 ∨ expr = "" then
    .error ("Bad sorting expression syntax: " ++ expr)
  else
    match chunks with
    | [] => .error ("Bad sorting expression syntax: " ++ expr)
    | field_name :: rest =>
      if field_name = "" then
        match rest with
        | f2 :: _ => .ok { field_name := f2, direction := .Descending }
        | [] => .error ("Bad sorting expression syntax: " ++ expr)
      else
        match rest with
        | [] => .ok { field_name := field_name, direction := .Ascending }
        | _ => .error ("Bad sorting expression syntax: " ++ expr)

/-- Replace-or-add the single-element sort set for a field: Python
`self.data[res.field_name] = {res}` in `Sorts.apply`. -/
def setAssocSort (data : List (String × List SortRestriction))
    (s : SortRestriction) : List (String × List SortRestriction) :=
  match data with
  | [] => [(s.field_name, [s])]
  | (k, v) :: rest =>
    if k = s.field_name then (k, [s]) :: rest
    else (k, v) :: setAssocSort rest s

/-- One parsed sort stored into the container, replacing any prior sort
for the same field. -/
def Sorts.addSort (ss : Sorts) (s : SortRestriction) : Sorts :=
  ⟨setAssocSort ss.data s⟩

/-- `Sorts.apply(*args)`: parse each sort expression and store it with
only-one-sort-per-field semantics. -/
def Sorts.apply (ss : Sorts) (args : List String) : Except String Sorts :=
  match args with
  | [] => .ok ss
  | e :: rest => do
    let s ← Sorts.make_object e
    Sorts.apply (ss.addSort s) rest

/-- Raw record coming from the remote collection (a Python dict). -/
abbrev Record := List (String × Value)

/-- Total-count values stored in the cache once known: a finite count, or
the module-level sentinel `Inf = Decimal(Inf)` from queryset.py meaning
count unknown, keep paging. -/
inductive TCount where
  | fin (n : Nat) : TCount
  | inf : TCount
deriving DecidableEq, Repr

/-- Python truthiness of a count value: `bool(0)` is false, any positive
number and `Decimal(Inf)` are true. -/
def TCount.toBool : TCount → Bool
  | .fin 0 => false
  | .fin (_ + 1) => true
  | .inf => true

/-- Python `c < total` where total may be the infinite sentinel. -/
def TCount.gtNat : TCount → Nat → Bool
  | .fin n, c => c < n
  | .inf, _ => true

/-- Sparse page cache. `cls` and `init_args` model the concrete cache
class and the constructor kwargs that `BaseCache.new` carries forward
(src/cacher/base.py); `data` is the sparse index-to-record storage;
`total_count` starts absent. -/
structure Cache where
  cls : String
  init_args : List (String × Value)
  data : List (Nat × Record)
  total_count : Option TCount
deriving DecidableEq, Repr

/-- `BaseCache.new`: a fresh, empty instance of the same class built from
the saved constructor kwargs only; contents and total_count are not
carried over (src/cacher/base.py lines 12-13). -/
def Cache.new (c : Cache) : Cache :=
  { cls := c.cls, init_args := c.init_args, data := [], total_count := none }

/-- Store one record at one index; the newest entry for an index shadows
older ones on reads. -/
def Cache.write1 (c : Cache) (i : Nat) (r : Record) : Cache :=
  { c with data := (i, r) :: c.data }

/-- Modelled from the spec: the cache slice assignment
`cache[offset:offset+limit] = records` is provided by the external
`sparsedlist` package (not under src/); spec section 4.2 defines
`write_range(offset, records)` as storing records at consecutive indices
starting at offset, truncating silently on short pages. -/
def Cache.write_range (c : Cache) (offset : Nat) (rs : List Record) : Cache :=
  match rs with
  | [] => c
  | r :: rest => (c.write1 offset r).write_range (offset + 1) rest

/-- Modelled from the spec: reading a single index of the external sparse
list raises IndexError when the index was never written (spec section
4.2 read); `none` is that missing-index signal. -/
def Cache.read (c : Cache) (i : Nat) : Option Record :=
  assocFind2 c.data i

/-- One request to the record-fetch contract: the arguments QuerySet
passes to `model_obj.get_list` in `QuerySet._fetch_page`. -/
structure FetchReq where
  filters : Filters
  sorts : Sorts
  pagination : Pagination
deriving DecidableEq, Repr

/-- `ListResponse` (src/layer/impl.py): a record list plus an optional
total_count attribute. -/
structure ListResponse where
  data : List Record
  total_count : Option Nat
deriving DecidableEq, Repr

/-- The record-fetch contract as a pure oracle: what `model_obj.get_list`
answers for each request. -/
abbrev Fetcher := FetchReq → ListResponse

/-- A materialized domain object: `QuerySet.new_model` creates a model
object through the materialization contract and updates it with the
record data. -/
structure MDomain where
  data : Record
deriving DecidableEq, Repr

/-- Which iterator class the QuerySet is set to produce. -/
inductive IterKind where
  | model
  | values
deriving DecidableEq, Repr

/-- The QuerySet state: one cache, the page size, one Filters, one Sorts
and the iterator class (src/model/queryset.py). The model object is not
part of the state here; its `get_list` is the Fetcher oracle passed to
each operation, and each operation returns the list of requests it made. -/
structure QuerySet where
  cache : Cache
  request_limit : Nat
  filters : Filters
  sorts : Sorts
  iterator_class : IterKind
deriving DecidableEq, Repr

/-- The request `QuerySet._fetch_page(offset, limit)` issues:
`get_list(self.filters, self.sorts, Pagination(limit=limit, offset=offset))`. -/
def QuerySet.reqAt (qs : QuerySet) (offset limit : Nat) : FetchReq :=
  { filters := qs.filters, sorts := qs.sorts,
    pagination := { offset := some offset, limit := some limit } }

/-- Translate the response total_count field to the cached value:
an explicit count when present, the Inf sentinel otherwise
(`QuerySet.cache_page` lines 139-142). -/
def tcOfResponse : Option Nat → TCount
  | some n => .fin n
  | none => .inf

/-- `QuerySet.cache_page(offset)`: fetch one page of `request_limit`
records at the offset, write it into the cache at consecutive indices
from the offset, and set the cache total_count. Returns the updated
QuerySet and the single fetch request made. -/
def QuerySet.cache_page (f : Fetcher) (qs : QuerySet) (offset : Nat) :
    QuerySet × FetchReq :=
  let rl := qs.request_limit
  let req := qs.reqAt offset rl
  let res := f req
  let cache1 := qs.cache.write_range offset res.data
  ({ qs with cache := { cache1 with total_count := some (tcOfResponse res.total_count) } },
   req)

/-- `QuerySet.count()`: when total_count is unknown, fill the cache with
the first page (offset 0) and return the now-known count; otherwise
return the cached count with no fetch. The middle component logs the
fetch requests made. -/
def QuerySet.count (f : Fetcher) (qs : QuerySet) :
    QuerySet × List FetchReq × TCount :=
  match qs.cache.total_count with
  | some t => (qs, [], t)
  | none =>
    let (qs', req) := qs.cache_page f 0
    (qs', [req], (qs'.cache.total_count).getD (.fin 0))

/-- `QuerySet.exists()`: Python `bool(self.count())`. -/
def QuerySet.existsQ (f : Fetcher) (qs : QuerySet) :
    QuerySet × List FetchReq × Bool :=
  let (qs', log, t) := qs.count f
  (qs', log, t.toBool)

/-- `QuerySet.__len__`: returns `self.count()`. -/
def QuerySet.len (f : Fetcher) (qs : QuerySet) :
    QuerySet × List FetchReq × TCount :=
  qs.count f

/-- `QuerySet.new_model(data)`: materialize one domain object updated
with the record data. -/
def QuerySet.new_model (_qs : QuerySet) (r : Record) : MDomain :=
  { data := r }

/-- The loop body of the generator `objs(start, stop, step)` inside
`QuerySet.__getitem__`, run to completion on structural fuel. Each
iteration re-reads `self.count()` (the count may change), stops when the
index passes the count or the stop bound, reads the cache, and on a miss
calls `cache_page((c // request_limit) * 10)` and retries once, breaking
out when the retry still misses. -/
def QuerySet.objsLoop (f : Fetcher) :
    Nat → QuerySet → Nat → Option Nat → Nat →
    QuerySet × List FetchReq × List MDomain
  | 0, qs, _, _, _ => (qs, [], [])
  | fuel + 1, qs, c, stop, step =>
    let (qs₁, log₁, t) := qs.count f
    if t.gtNat c && (match stop with | none => true | some s => decide (c < s)) then
      match qs₁.cache.read c with
      | some o =>
        let (qs₂, log₂, ys) := objsLoop f fuel qs₁ (c + step) stop step
        (qs₂, log₁ ++ log₂, qs₁.new_model o :: ys)
      | none =>
        let (qs₂, req) := qs₁.cache_page f ((c / qs₁.request_limit) * 10)
        match qs₂.cache.read c with
        | some o =>
          let (qs₃, log₃, ys) := objsLoop f fuel qs₂ (c + step) stop step
          (qs₃, log₁ ++ [req] ++ log₃, qs₂.new_model o :: ys)
        | none => (qs₂, log₁ ++ [req], [])
    else
      (qs₁, log₁, [])

/-- Exceptions escaping `QuerySet.__getitem__`: the negative-index
assertion, and IndexError for an out-of-range integer index. -/
inductive PyErr where
  | assertionError
  | indexError
deriving DecidableEq, Repr

/-- `QuerySet.__getitem__` with an integer key: assert the key is
non-negative, raise IndexError when it is not below `count()`, otherwise
materialize `list(objs(k, k+1, 1))[0]`; an empty list there surfaces as
IndexError as well. -/
def QuerySet.getItemInt (f : Fetcher) (fuel : Nat) (qs : QuerySet) (k : Int) :
    QuerySet × List FetchReq × Except PyErr MDomain :=
  if k < 0 then (qs, [], .error .assertionError)
  else
    let k' := k.toNat
    let (qs₁, log₁, t) := qs.count f
    if t.gtNat k' then
      let (qs₂, log₂, ys) := QuerySet.objsLoop f fuel qs₁ k' (some (k' + 1)) 1
      match ys with
      | [] => (qs₂, log₁ ++ log₂, .error .indexError)
      | y :: _ => (qs₂, log₁ ++ log₂, .ok y)
    else
      (qs₁, log₁, .error .indexError)

/-- `QuerySet.__getitem__` with a slice key: the assertion rejects any
negative start, stop or step (and a zero step) before anything else runs;
otherwise the generator `objs(start, stop, step)` produces the items
(consumed eagerly here with fuel, Python consumers drive it lazily). -/
def QuerySet.getItemSlice (f : Fetcher) (fuel : Nat) (qs : QuerySet)
    (start stop step : Option Int) :
    QuerySet × List FetchReq × Except PyErr (List MDomain) :=
  if (match start with | none => true | some a => decide (0 ≤ a)) &&
     (match stop with | none => true | some b => decide (0 ≤ b)) &&
     (match step with | none => true | some c => decide (0 < c)) then
    let c0 := (start.getD 0).toNat
    let stepN := (step.getD 1).toNat
    let stopN := stop.map Int.toNat
    let (qs', log, ys) := QuerySet.objsLoop f fuel qs c0 stopN stepN
    (qs', log, .ok ys)
  else
    (qs, [], .error .assertionError)

/-- `QuerySet.__deepcopy__`: every attribute of the clone is a deep copy
of the original attribute, except the cache, which is replaced by
`self._cache.new()` — a freshly emptied cache of the same concrete type. -/
def QuerySet.deepcopy (qs : QuerySet) : QuerySet :=
  { cache := qs.cache.new, request_limit := qs.request_limit,
    filters := qs.filters, sorts := qs.sorts,
    iterator_class := qs.iterator_class }

/-- `QuerySet.filter(**kwargs)`: deep-copy the QuerySet and apply the
filter expressions to the copy's filters. -/
def QuerySet.filter (qs : QuerySet) (kwargs : List (String × Value)) :
    Except String QuerySet :=
  match qs.filters.apply kwargs with
  | .ok fs => .ok { qs.deepcopy with filters := fs }
  | .error e => .error e

/-- `QuerySet.order_by(*args)`: deep-copy the QuerySet and apply the sort
expressions to the copy's sorts. -/
def QuerySet.order_by (qs : QuerySet) (args : List String) :
    Except String QuerySet :=
  match qs.sorts.apply args with
  | .ok ss => .ok { qs.deepcopy with sorts := ss }
  | .error e => .error e

/-- `QuerySet.all()`: a deep copy of the QuerySet. -/
def QuerySet.allQ (qs : QuerySet) : QuerySet :=
  qs.deepcopy

/-- `QuerySet.values()`: a deep copy whose iterator class yields raw
records instead of model objects. -/
def QuerySet.valuesQ (qs : QuerySet) : QuerySet :=
  { qs.deepcopy with iterator_class := .values }

/-- One entry of the Flask-Restless `q.filters` list built by
`RestlessAdapter.build_q.to_filter`: field name, wire operator token, and
the value (absent for the null-check operators). -/
structure RestlessFilterDict where
  name : String
  op : String
  val : Option Value
deriving DecidableEq, Repr

/-- The `RestlessAdapter.restless_filters` operator table. -/
def restless_filters : FilterOperator → String
  | .Equal => "eq"
  | .NotEqual => "neq"
  | .GreaterThan => "gt"
  | .LessThan => "lt"
  | .In => "in"

/-- `RestlessAdapter.build_q.to_filter` (src/adapters/restless.py lines
194-214): a null value maps Equal to is_null and NotEqual to is_not_null;
any other operator with a null value raises AdapterError with a message
naming the operator and the field; a non-null value goes through the
operator table. The error is modelled as its message string. -/
def to_filter (f : Filter) : Except String RestlessFilterDict :=
  match f.val with
  | .null =>
    if f.op = .Equal then
      .ok { name := f.field_name, op := "is_null", val := none }
    else if f.op = .NotEqual then
      .ok { name := f.field_name, op := "is_not_null", val := none }
    else
      .error ("Cannot apply \x27" ++ f.op.pyStr ++
        "\x27 operation to NULL in filter on field \x27" ++ f.field_name ++ "\x27")
  | v => .ok { name := f.field_name, op := restless_filters f.op, val := some v }

/-- A concrete record for test scenarios: the record with a given id. -/
def recAt (i : Nat) : Record := [("id", Value.int (Int.ofNat i))]

/-- An honest remote collection of `total` records that honours
offset/limit pagination and always reports its total count. -/
def honestServer (total : Nat) : Fetcher := fun req =>
  let o := req.pagination.offset.getD 0
  let l := req.pagination.limit.getD 0
  { data := (List.range (min (o + l) total - o)).map fun i => recAt (o + i),
    total_count := some total }

/-- A remote collection that never reports a total count. -/
def countlessServer (total : Nat) : Fetcher := fun req =>
  { honestServer total req with total_count := none }

/-- An empty in-memory cache, as `MemoryCacher().new_cache()` makes. -/
def emptyCache : Cache :=
  { cls := "MemoryCache", init_args := [], data := [], total_count := none }

/-- A fresh QuerySet with the given request limit and no restrictions. -/
def qsRL (rl : Nat) : QuerySet :=
  { cache := emptyCache, request_limit := rl,
    filters := Filters.empty, sorts := Sorts.empty, iterator_class := .model }

/-- Size of the filter set stored under a field name, through the
Except wrapper of a filter application. -/
def filterCountAt (e : Except String Filters) (fld : String) : Option Nat :=
  match e with
  | .ok fs => (assocFind fs.data fld).map List.length
  | .error _ => none

/-- The sort set stored under a field name, through the Except wrapper of
a sort application. -/
def sortsAt (e : Except String Sorts) (fld : String) :
    Option (List SortRestriction) :=
  match e with
  | .ok ss => assocFind ss.data fld
  | .error _ => none

/-! Cache read/write lemmas used below. -/

theorem read_write1_same (c : Cache) (i : Nat) (r : Record) :
    (c.write1 i r).read i = some r := by
  simp [Cache.write1, Cache.read, assocFind2]

theorem read_write1_ne (c : Cache) (i j : Nat) (r : Record) (h : i ≠ j) :
    (c.write1 i r).read j = c.read j := by
  simp [Cache.write1, Cache.read, assocFind2, h]

theorem write_range_read_lt (rs : List Record) :
    ∀ (offset : Nat) (c : Cache) (j : Nat), j < offset →
      (c.write_range offset rs).read j = c.read j := by
  induction rs with
  | nil => intro offset c j _; rfl
  | cons r rest ih =>
    intro offset c j hj
    show ((c.write1 offset r).write_range (offset + 1) rest).read j = c.read j
    rw [ih (offset + 1) (c.write1 offset r) j (by omega)]
    exact read_write1_ne c offset j r (by omega)

theorem write_range_read_at (rs : List Record) :
    ∀ (offset : Nat) (c : Cache) (i : Nat), i < rs.length →
      (c.write_range offset rs).read (offset + i) = rs.get? i := by
  induction rs with
  | nil => intro _ _ i hi; exact absurd hi (by simp)
  | cons r rest ih =>
    intro offset c i hi
    match i with
    | 0 =>
      show ((c.write1 offset r).write_range (offset + 1) rest).read (offset + 0) = _
      rw [write_range_read_lt rest (offset + 1) (c.write1 offset r) (offset + 0) (by omega)]
      simp [Cache.write1, Cache.read, assocFind2]
    | i + 1 =>
      show ((c.write1 offset r).write_range (offset + 1) rest).read (offset + (i + 1)) = _
      have : offset + (i + 1) = (offset + 1) + i := by omega
      rw [this, ih (offset + 1) (c.write1 offset r) i (by simpa using hi)]
      rfl

theorem read_total_set (c : Cache) (t : Option TCount) (j : Nat) :
    (Cache.read { c with total_count := t } j) = c.read j := rfl

theorem cache_page_req (f : Fetcher) (qs : QuerySet) (offset : Nat) :
    (qs.cache_page f offset).2 = qs.reqAt offset qs.request_limit := rfl

theorem cache_page_total (f : Fetcher) (qs : QuerySet) (offset : Nat) :
    (qs.cache_page f offset).1.cache.total_count =
      some (tcOfResponse (f (qs.reqAt offset qs.request_limit)).total_count) := rfl

theorem cache_page_read (f : Fetcher) (qs : QuerySet) (offset i : Nat)
    (hi : i < (f (qs.reqAt offset qs.request_limit)).data.length) :
    (qs.cache_page f offset).1.cache.read (offset + i) =
      (f (qs.reqAt offset qs.request_limit)).data.get? i := by
  show (Cache.read { qs.cache.write_range offset _ with total_count := _ } _) = _
  rw [read_total_set]
  exact write_range_read_at _ offset qs.cache i hi

/-! Claim theorems. -/

/-- Claim C1: `cache_page(offset)` makes exactly one record-fetch call,
passing the current Filters, Sorts and a Pagination with
limit = request_limit and offset = offset; it stores the returned records
into the cache at consecutive indices from the offset — all of
[offset, offset + request_limit) when a full page comes back — and sets
the cache total_count to the explicit response count when present and to
the infinite sentinel otherwise. -/
theorem cache_page_spec (f : Fetcher) (qs : QuerySet) (offset : Nat) :
    (qs.cache_page f offset).2 =
      { filters := qs.filters, sorts := qs.sorts,
        pagination := { offset := some offset, limit := some qs.request_limit } } ∧
    (∀ i, i < (f (qs.reqAt offset qs.request_limit)).data.length →
      (qs.cache_page f offset).1.cache.read (offset + i) =
        (f (qs.reqAt offset qs.request_limit)).data.get? i) ∧
    ((f (qs.reqAt offset qs.request_limit)).data.length = qs.request_limit →
      ∀ j, offset ≤ j → j < offset + qs.request_limit →
        ((qs.cache_page f offset).1.cache.read j).isSome = true) ∧
    (∀ n, (f (qs.reqAt offset qs.request_limit)).total_count = some n →
      (qs.cache_page f offset).1.cache.total_count = some (.fin n)) ∧
    ((f (qs.reqAt offset qs.request_limit)).total_count = none →
      (qs.cache_page f offset).1.cache.total_count = some .inf) := by
  refine ⟨rfl, ?_, ?_, ?_, ?_⟩
  · intro i hi
    exact cache_page_read f qs offset i hi
  · intro hlen j hj1 hj2
    have hlt : j - offset < (f (qs.reqAt offset qs.request_limit)).data.length := by
      omega
    have h := cache_page_read f qs offset (j - offset) hlt
    rw [show offset + (j - offset) = j by omega] at h
    rw [h, List.get?_eq_get hlt]
    rfl
  · intro n hn
    rw [cache_page_total, hn]
    rfl
  · intro hn
    rw [cache_page_total, hn]
    rfl

/-- Claim C1 witness: with a 20-record server, request limit 5 and offset
5, cache_page stores the record with id 7 at index 7 and records the
total count 20. -/
theorem cache_page_spec_witness :
    ((qsRL 5).cache_page (honestServer 20) 5).1.cache.read 7 = some (recAt 7) ∧
    ((qsRL 5).cache_page (honestServer 20) 5).1.cache.total_count =
      some (TCount.fin 20) := by
  have h := cache_page_spec (honestServer 20) (qsRL 5) 5
  constructor
  · have h2 := h.2.1 2 (by decide)
    rw [show (5 : Nat) + 2 = 7 from rfl] at h2
    rw [h2]
    decide
  · exact h.2.2.2.1 20 (by decide)

/-- Claim C2: when the cached total_count is unknown, `count()` makes
exactly one fetch, of the first page at offset 0, and returns the count
learned from it; when total_count is already populated it returns that
value with zero fetches and an unchanged QuerySet. -/
theorem count_spec (f : Fetcher) (qs : QuerySet) :
    (∀ t, qs.cache.total_count = some t → qs.count f = (qs, [], t)) ∧
    (qs.cache.total_count = none →
      qs.count f = ((qs.cache_page f 0).1,
        [{ filters := qs.filters, sorts := qs.sorts,
           pagination := { offset := some 0, limit := some qs.request_limit } }],
        tcOfResponse (f (qs.reqAt 0 qs.request_limit)).total_count)) := by
  constructor
  · intro t ht
    simp [QuerySet.count, ht]
  · intro h
    simp only [QuerySet.count, h]
    rw [cache_page_total]
    rfl

/-- Claim C2 witness: on an empty cache one fetch at offset 0 happens and
the count 20 is returned; calling count again on the filled cache fetches
nothing and returns 20 directly. -/
theorem count_spec_witness :
    (qsRL 10).count (honestServer 20) =
      (((qsRL 10).cache_page (honestServer 20) 0).1,
       [(qsRL 10).reqAt 0 10], TCount.fin 20) ∧
    ((qsRL 10).cache_page (honestServer 20) 0).1.count (honestServer 20) =
      (((qsRL 10).cache_page (honestServer 20) 0).1, [], TCount.fin 20) := by
  constructor
  · exact ((count_spec (honestServer 20) (qsRL 10)).2 rfl).trans (by decide)
  · exact (count_spec (honestServer 20)
      ((qsRL 10).cache_page (honestServer 20) 0).1).1 (TCount.fin 20) (by decide)

/-- Claim C5: cloning through filter, order_by, all and values builds the
new QuerySet from deep copies of the restrictions (equal restriction
values, extended by the given expressions for filter and order_by) and a
freshly emptied cache of the same concrete class obtained from the
cache's `new()`, never a copy of the cache contents; the operations are
functions of the original QuerySet value, which they leave untouched. -/
theorem clone_fresh_cache (qs : QuerySet) (kwargs : List (String × Value))
    (args : List String) :
    qs.cache.new = { cls := qs.cache.cls, init_args := qs.cache.init_args,
                     data := [], total_count := none } ∧
    qs.allQ = { cache := qs.cache.new, request_limit := qs.request_limit,
                filters := qs.filters, sorts := qs.sorts,
                iterator_class := qs.iterator_class } ∧
    qs.valuesQ = { cache := qs.cache.new, request_limit := qs.request_limit,
                   filters := qs.filters, sorts := qs.sorts,
                   iterator_class := .values } ∧
    qs.filter kwargs = (qs.filters.apply kwargs).map
      (fun fs => { cache := qs.cache.new, request_limit := qs.request_limit,
                   filters := fs, sorts := qs.sorts,
                   iterator_class := qs.iterator_class }) ∧
    qs.order_by args = (qs.sorts.apply args).map
      (fun ss => { cache := qs.cache.new, request_limit := qs.request_limit,
                   filters := qs.filters, sorts := ss,
                   iterator_class := qs.iterator_class }) := by
  refine ⟨rfl, rfl, rfl, ?_, ?_⟩
  · unfold QuerySet.filter
    cases qs.filters.apply kwargs <;> rfl
  · unfold QuerySet.order_by
    cases qs.sorts.apply args <;> rfl

/-- Claim C6: on the same field, two filter expressions that parse to
different Filter objects are both retained — the field's set reaches
size 2 — while applying the identical filter expression twice retains
only one, because the container's set semantics deduplicate filters that
are equal on field_name, operator and value. -/
theorem filters_apply_set_semantics (k1 k2 : String) (v1 v2 : Value)
    (f1 f2 : Filter)
    (h1 : Filters.make_object k1 v1 = .ok f1)
    (h2 : Filters.make_object k2 v2 = .ok f2)
    (hfld : f2.field_name = f1.field_name) :
    (f1 ≠ f2 →
      filterCountAt ((Filters.empty.apply [(k1, v1)]).bind
        fun fs => fs.apply [(k2, v2)]) f1.field_name = some 2) ∧
    filterCountAt ((Filters.empty.apply [(k1, v1)]).bind
      fun fs => fs.apply [(k1, v1)]) f1.field_name = some 1 := by
  have e1 : ∀ fs : Filters, fs.apply [(k1, v1)] = .ok (fs.addFilter f1) := by
    intro fs
    simp only [Filters.apply, h1]
    rfl
  have e2 : ∀ fs : Filters, fs.apply [(k2, v2)] = .ok (fs.addFilter f2) := by
    intro fs
    simp only [Filters.apply, h2]
    rfl
  constructor
  · intro hne
    rw [e1]
    show filterCountAt ((Filters.empty.addFilter f1).apply [(k2, v2)])
      f1.field_name = some 2
    rw [e2]
    simp [filterCountAt, Filters.addFilter, addFilterAssoc, Filters.empty, hfld,
      assocFind, setAdd, Ne.symm hne]
  · rw [e1]
    show filterCountAt ((Filters.empty.addFilter f1).apply [(k1, v1)])
      f1.field_name = some 1
    rw [e1]
    simp [filterCountAt, Filters.addFilter, addFilterAssoc, Filters.empty,
      assocFind, setAdd]

/-- Claim C6 witness: age greater-than 10 together with age less-than 20
keeps both filters; applying age greater-than 10 twice keeps one. -/
theorem filters_apply_set_semantics_witness :
    filterCountAt ((Filters.empty.apply [("age__gt", Value.int 10)]).bind
      fun fs => fs.apply [("age__lt", Value.int 20)]) "age" = some 2 ∧
    filterCountAt ((Filters.empty.apply [("age__gt", Value.int 10)]).bind
      fun fs => fs.apply [("age__gt", Value.int 10)]) "age" = some 1 := by
  have h := filters_apply_set_semantics "age__gt" "age__lt"
    (Value.int 10) (Value.int 20)
    ⟨"age", .GreaterThan, .int 10⟩ ⟨"age", .LessThan, .int 20⟩
    (by decide) (by decide) rfl
  exact ⟨h.1 (by decide), h.2⟩

/-- Helper for claim C7: storing a sort always leaves exactly the new
single-element set under its field name, whatever was there before. -/
theorem assocFind_setAssocSort_same (data : List (String × List SortRestriction))
    (s : SortRestriction) :
    assocFind (setAssocSort data s) s.field_name = some [s] := by
  induction data with
  | nil => simp [setAssocSort, assocFind]
  | cons p rest ih =>
    obtain ⟨k, v⟩ := p
    by_cases hk : k = s.field_name
    · simp [setAssocSort, hk, assocFind]
    · simp [setAssocSort, hk, assocFind, ih]

/-- Claim C7: re-applying a sort for a field replaces the prior entry
rather than adding to it; in particular applying the descending
expression and then the plain field name leaves exactly one Sort for
that field, with ascending direction. -/
theorem sorts_apply_replace (ss : Sorts) (s : SortRestriction) (fld : String)
    (h1 : Sorts.make_object ("-" ++ fld) = .ok ⟨fld, .Descending⟩)
    (h2 : Sorts.make_object fld = .ok ⟨fld, .Ascending⟩) :
    assocFind (ss.addSort s).data s.field_name = some [s] ∧
    sortsAt (ss.apply ["-" ++ fld, fld]) fld = some [⟨fld, .Ascending⟩] := by
  constructor
  · exact assocFind_setAssocSort_same ss.data s
  · have happ : ss.apply ["-" ++ fld, fld] =
        .ok ((ss.addSort ⟨fld, .Descending⟩).addSort ⟨fld, .Ascending⟩) := by
      simp only [Sorts.apply, h1, h2]
      rfl
    rw [happ]
    exact assocFind_setAssocSort_same (ss.addSort ⟨fld, .Descending⟩).data
      ⟨fld, .Ascending⟩

/-- Claim C7 witness: applying the descending and then the ascending
expression for the name field leaves only the ascending sort. -/
theorem sorts_apply_replace_witness :
    sortsAt (Sorts.empty.apply ["-name", "name"]) "name" =
      some [⟨"name", .Ascending⟩] :=
  (sorts_apply_replace Sorts.empty ⟨"x", .Descending⟩ "name"
    (by decide) (by decide)).2

/-- Claim C8: translating a null-valued filter for transport maps Equal
to the is_null operator and NotEqual to is_not_null; every other operator
with a null value fails with a translation error whose message names the
offending operator and field. -/
theorem restless_null_translation (f : Filter) (h : f.val = .null) :
    (f.op = .Equal → to_filter f = .ok ⟨f.field_name, "is_null", none⟩) ∧
    (f.op = .NotEqual → to_filter f = .ok ⟨f.field_name, "is_not_null", none⟩) ∧
    (f.op ≠ .Equal → f.op ≠ .NotEqual →
      to_filter f = .error ("Cannot apply \x27" ++ f.op.pyStr ++
        "\x27 operation to NULL in filter on field \x27" ++ f.field_name ++
        "\x27")) := by
  obtain ⟨fn, op, v⟩ := f
  subst h
  cases op <;> simp [to_filter]

/-- Claim C8 witness: the three null-value translation outcomes at
concrete filters on field a. -/
theorem restless_null_translation_witness :
    to_filter ⟨"a", .Equal, .null⟩ = .ok ⟨"a", "is_null", none⟩ ∧
    to_filter ⟨"a", .NotEqual, .null⟩ = .ok ⟨"a", "is_not_null", none⟩ ∧
    to_filter ⟨"a", .In, .null⟩ =
      .error "Cannot apply \x27FilterOperator.In\x27 operation to NULL in filter on field \x27a\x27" := by
  refine ⟨(restless_null_translation ⟨"a", .Equal, .null⟩ rfl).1 rfl,
    (restless_null_translation ⟨"a", .NotEqual, .null⟩ rfl).2.1 rfl, ?_⟩
  have h := (restless_null_translation ⟨"a", .In, .null⟩ rfl).2.2
    (by decide) (by decide)
  exact h.trans (by decide)

/-- Claim C9: a slice access with a negative start, stop or step fails
the leading assertion, and the failure happens before any fetch: the
request log is empty and the QuerySet is unchanged. -/
theorem slice_negative_asserts (f : Fetcher) (fuel : Nat) (qs : QuerySet)
    (start stop step : Option Int)
    (h : (∃ a, start = some a ∧ a < 0) ∨ (∃ b, stop = some b ∧ b < 0) ∨
         (∃ c, step = some c ∧ c < 0)) :
    QuerySet.getItemSlice f fuel qs start stop step =
      (qs, [], .error .assertionError) := by
  rcases h with ⟨a, rfl, ha⟩ | ⟨b, rfl, hb⟩ | ⟨c, rfl, hc⟩
  · simp [QuerySet.getItemSlice, not_le.mpr ha]
  · simp [QuerySet.getItemSlice, not_le.mpr hb]
  · simp [QuerySet.getItemSlice, not_lt.mpr (le_of_lt hc)]

/-- Claim C9 witness: a slice starting at minus one raises the assertion
with no fetch performed. -/
theorem slice_negative_asserts_witness :
    QuerySet.getItemSlice (honestServer 20) 2 (qsRL 10) (some (-1)) none none =
      (qsRL 10, [], .error .assertionError) :=
  slice_negative_asserts (honestServer 20) 2 (qsRL 10) (some (-1)) none none
    (.inl ⟨-1, rfl, by decide⟩)

/-- Claim C10: a fetched page without an explicit total count makes
cache_page store the infinite sentinel; count() then returns that
sentinel — which is no finite natural number — len delegates to count,
and exists() is true. -/
theorem inf_sentinel_spec (f : Fetcher) (qs : QuerySet) (offset : Nat) :
    qs.len f = qs.count f ∧
    (∀ n : Nat, TCount.inf = TCount.fin n → False) ∧
    ((f (qs.reqAt offset qs.request_limit)).total_count = none →
      (qs.cache_page f offset).1.cache.total_count = some .inf) ∧
    (qs.cache.total_count = none →
      (f (qs.reqAt 0 qs.request_limit)).total_count = none →
      (qs.count f).2.2 = .inf ∧ (qs.existsQ f).2.2 = true) ∧
    (qs.cache.total_count = some .inf →
      (qs.count f).2.2 = .inf ∧ (qs.existsQ f).2.2 = true) := by
  refine ⟨rfl, ?_, ?_, ?_, ?_⟩
  · intro n h
    cases h
  · intro h
    rw [cache_page_total, h]
    rfl
  · intro h hf
    have hc := (count_spec f qs).2 h
    constructor
    · rw [hc]
      simp [tcOfResponse, hf]
    · show ((qs.count f).2.2).toBool = true
      rw [hc]
      simp [tcOfResponse, hf, TCount.toBool]
  · intro h
    have hc := (count_spec f qs).1 .inf h
    exact ⟨by rw [hc], by show ((qs.count f).2.2).toBool = true; rw [hc]; rfl⟩

/-- Claim C10 witness: against a server that reports no total count, the
first page fetch stores the infinite sentinel, count() returns it and
exists() is true. -/
theorem inf_sentinel_spec_witness :
    ((qsRL 10).cache_page (countlessServer 20) 0).1.cache.total_count =
      some TCount.inf ∧
    ((qsRL 10).count (countlessServer 20)).2.2 = TCount.inf ∧
    ((qsRL 10).existsQ (countlessServer 20)).2.2 = true := by
  have h := inf_sentinel_spec (countlessServer 20) (qsRL 10) 0
  exact ⟨h.2.2.1 (by decide), (h.2.2.2.1 rfl (by decide)).1,
    (h.2.2.2.1 rfl (by decide)).2⟩

/-- Claim C3, evaluated at the failing input: with request_limit 5 and a
20-record server, iterating the slice from 7 to 8 misses index 7 after
the count fetch at offset 0, then fetches the page at offset
(7 / 5) * 10 = 10 — not the page containing index 7, which starts at
(7 / 5) * 5 = 5 — so the retry misses although the server holds the
record (it sits at position 7 - 5 of the page at offset 5), and the
iteration ends with no items. -/
theorem slice_miss_fetch_offset_eval :
    ((qsRL 5).getItemSlice (honestServer 20) 2 (some 7) (some 8) (some 1)).2.1 =
      [(qsRL 5).reqAt 0 5, (qsRL 5).reqAt 10 5] ∧
    ((qsRL 5).getItemSlice (honestServer 20) 2 (some 7) (some 8) (some 1)).2.2 =
      .ok [] ∧
    (7 / 5) * 10 = 10 ∧ (7 / 5) * 5 = 5 ∧
    (honestServer 20 ((qsRL 5).reqAt 5 5)).data.get? (7 - 5) = some (recAt 7) := by
  decide

/-- Claim C4, evaluated at the failing input: with request_limit 5 the
integer access at index 7 raises IndexError even though 7 is below the
count of 20, because the miss-triggered fetch goes to offset 10 instead
of 5; with the default request_limit 10 the same access returns the
materialized record with id 7. -/
theorem getitem_wrong_page_eval :
    ((qsRL 5).getItemInt (honestServer 20) 2 7).2.2 = .error .indexError ∧
    TCount.gtNat ((qsRL 5).count (honestServer 20)).2.2 7 = true ∧
    ((qsRL 10).getItemInt (honestServer 20) 2 7).2.2 = .ok { data := recAt 7 } := by
  decide

end Koifish
